import Mathlib

/-!
Verification of the mod-loader placement core (`src-tauri/src/game/mod_loader.rs`).

The `ModLoader` data model, `is_loader_package`, `installer_for`, `proxy_dll`,
`mod_config_dir` and `log_path` are embedded directly from the Rust source.
The installer implementations (`Subdir`, `SubdirInstaller`, `ExtractInstaller`
and the plan executor) live in `crate::profile::install`, which is not among
the provided sources; their behavior is modelled from the specification and
each such definition is marked accordingly.
-/

namespace Gale

/-- Modelled from the spec: layout mode of a `SubdirRule` (spec section 3) —
`Flat` discards the matched top-level segment, `Nested` preserves structure and
adds a per-mod level. The Rust `Subdir` type is in `crate::profile::install`,
not among the provided sources. -/
inductive Layout where
  | Flat
  | Nested
deriving DecidableEq, Repr

/-- Modelled from the spec: tracking mode of a `SubdirRule` (spec section 3). -/
inductive Tracking where
  | Tracked
  | Untracked
deriving DecidableEq, Repr

/-- Modelled from the spec: one declarative placement rule (`SubdirRule`,
spec section 3): match name, destination, layout, tracking, mutability and an
optional extension filter. Mirrors the Rust `Subdir` of
`crate::profile::install`, which is not among the provided sources. -/
structure Subdir where
  match_name : String
  destination : String
  layout : Layout
  tracking : Tracking
  isMutable : Bool
  extension_filter : Option String
deriving DecidableEq, Repr

/-- Modelled from the spec: builder `Subdir::tracked` — a tracked, immutable
rule with no extension filter. -/
def Subdir.tracked (name destination : String) : Subdir :=
  ⟨name, destination, .Flat, .Tracked, false, none⟩

/-- Modelled from the spec: builder `Subdir::untracked` — an untracked rule. -/
def Subdir.untracked (name destination : String) : Subdir :=
  ⟨name, destination, .Flat, .Untracked, false, none⟩

/-- Modelled from the spec: builder `Subdir::separated` — a tracked rule with
the nested (per-mod separated) layout. -/
def Subdir.separated (name destination : String) : Subdir :=
  ⟨name, destination, .Nested, .Tracked, false, none⟩

/-- Modelled from the spec: builder `Subdir::flat_separated` — a tracked rule
with the flat layout. -/
def Subdir.flat_separated (name destination : String) : Subdir :=
  ⟨name, destination, .Flat, .Tracked, false, none⟩

/-- Modelled from the spec: builder method `Subdir::extension`, setting the
rule's extension filter. -/
def Subdir.extension (r : Subdir) (e : String) : Subdir :=
  { r with extension_filter := some e }

/-- Modelled from the spec: builder method `Subdir::mutable`, marking the
rule's placed files as user-mutable. -/
def Subdir.mutable (r : Subdir) : Subdir :=
  { r with isMutable := true }

/-- The closed set of mod-loader variants (`ModLoaderKind` in
`mod_loader.rs`), with the per-variant runtime data carried by each. -/
inductive ModLoaderKind where
  | BepInEx (extra_subdirs : List Subdir)
  | BepisLoader (extra_subdirs : List Subdir)
  | MelonLoader (extra_subdirs : List Subdir)
  | Northstar
  | GDWeave
  | Shimloader
  | Lovely
  | ReturnOfModding (files : List String)
deriving DecidableEq, Repr

/-- The `ModLoader` record of `mod_loader.rs`: an optional explicit
self-package name override plus the variant. -/
structure ModLoader where
  package_name : Option String
  kind : ModLoaderKind
deriving DecidableEq, Repr

/-- Embedding of Rust `str::starts_with` on strings: the pattern's characters
are a prefix of the subject's characters. -/
def strStartsWith (s pat : String) : Bool :=
  pat.data.isPrefixOf s.data

/-- `ModLoader::is_loader_package` from `mod_loader.rs`: an explicit
`package_name` override is compared exactly; otherwise each variant has its
built-in identity check. -/
def ModLoader.is_loader_package (ml : ModLoader) (full_name : String) : Bool :=
  match ml.package_name with
  | some package_name => full_name == package_name
  | none =>
    match ml.kind with
    | .BepInEx _ => strStartsWith full_name "BepInEx-BepInExPack"
    | .BepisLoader _ =>
        full_name == "ResoniteModding-BepisLoader"
          || full_name == "ResoniteModding-BepInExRenderer"
    | .MelonLoader _ => full_name == "LavaGang-MelonLoader"
    | .GDWeave => full_name == "NotNet-GDWeave"
    | .Northstar => full_name == "northstar-Northstar"
    | .Shimloader => full_name == "Thunderstore-unreal_shimloader"
    | .Lovely => full_name == "Thunderstore-lovely"
    | .ReturnOfModding _ => full_name == "ReturnOfModding-ReturnOfModding"

/-- `ModLoader::log_path` from `mod_loader.rs`. -/
def ModLoader.log_path (ml : ModLoader) : Option String :=
  match ml.kind with
  | .BepInEx _ => some "BepInEx/LogOutput.log"
  | .BepisLoader _ => some "BepInEx/LogOutput.log"
  | .MelonLoader _ => some "MelonLoader/Latest.log"
  | .GDWeave => some "GDWeave/GDWeave.log"
  | .Northstar => none
  | .Shimloader => none
  | .Lovely => some "mods/lovely/log"
  | .ReturnOfModding _ => none

/-- `ModLoader::mod_config_dir` from `mod_loader.rs` (a `PathBuf`, embedded as
the relative path string). -/
def ModLoader.mod_config_dir (ml : ModLoader) : String :=
  match ml.kind with
  | .BepInEx _ => "BepInEx/config"
  | .BepisLoader _ => "BepInEx/config"
  | .MelonLoader _ => "."
  | .GDWeave => "GDWeave/configs"
  | .Northstar => "."
  | .Shimloader => "."
  | .Lovely => "."
  | .ReturnOfModding _ => "ReturnOfModding/config"

/-- `ModLoader::proxy_dll` from `mod_loader.rs`. The Rust code indexes
`files[0]`, which panics on an empty list; the panic is embedded as the
`Except.error` case carrying the Rust panic message. -/
def ModLoader.proxy_dll (ml : ModLoader) : Except String (Option String) :=
  match ml.kind with
  | .BepInEx _ => .ok (some "winhttp")
  | .GDWeave => .ok (some "winmm")
  | .ReturnOfModding files =>
    match files with
    | [] => .error "index out of bounds: the len is 0 but the index is 0"
    | f :: _ => .ok (some f)
  | _ => .ok none

/-- The flatten flag passed to `ExtractInstaller::new` (`FlattenTopLevel` in
`crate::profile::install`). -/
inductive FlattenTopLevel where
  | Yes
  | No
deriving DecidableEq, Repr

/-- Modelled from the spec: the configuration held by a `SubdirInstaller`
(spec sections 3 and 4.2) — built-in rules, runtime extra rules appended after
them, an optional default-rule index and the ignored-filename set. The Rust
`SubdirInstaller` is in `crate::profile::install`, not among the provided
sources. -/
structure SubdirInstaller where
  subdirs : List Subdir
  extras : List Subdir
  defaultIdx : Option Nat
  ignored : List String
deriving DecidableEq, Repr

/-- Modelled from the spec: `SubdirInstaller::new` starts from the built-in
rule list with no extras, no default rule and no ignored files. -/
def SubdirInstaller.new (subdirs : List Subdir) : SubdirInstaller :=
  ⟨subdirs, [], none, []⟩

/-- Modelled from the spec: `SubdirInstaller::with_default` designates the
rule at the given index as the catch-all default. -/
def SubdirInstaller.with_default (si : SubdirInstaller) (i : Nat) : SubdirInstaller :=
  { si with defaultIdx := some i }

/-- Modelled from the spec: `SubdirInstaller::with_extras` appends the
descriptor's runtime extra rules after the built-ins. -/
def SubdirInstaller.with_extras (si : SubdirInstaller) (extras : List Subdir) : SubdirInstaller :=
  { si with extras := extras }

/-- Modelled from the spec: `SubdirInstaller::with_ignored_files` sets the
ignored-filename set. -/
def SubdirInstaller.with_ignored_files (si : SubdirInstaller) (ignored : List String) : SubdirInstaller :=
  { si with ignored := ignored }

/-- The closed set of installer values `ModLoader::installer_for` can return
(the concrete `PackageInstaller` implementors named in `mod_loader.rs`):
the bespoke `BepinexInstaller`, `GDWeaveModInstaller` and
`ShimloaderInstaller`, plus `ExtractInstaller` and `SubdirInstaller` with
their configurations. -/
inductive PackageInstaller where
  | BepinexInstaller
  | GDWeaveModInstaller
  | ShimloaderInstaller
  | ExtractInstaller (files : List String) (flatten : FlattenTopLevel)
  | SubdirInstaller (si : SubdirInstaller)
deriving DecidableEq, Repr

/-- Whether an installer is the extraction-based placer. -/
def PackageInstaller.isExtract : PackageInstaller → Bool
  | .ExtractInstaller _ _ => true
  | _ => false

/-- Whether an installer is the subdir-rule-based placer. -/
def PackageInstaller.isSubdir : PackageInstaller → Bool
  | .SubdirInstaller _ => true
  | _ => false

/-- The BepInEx built-in rule list from `installer_for` (`mod_loader.rs`). -/
def bepinexSubdirs : List Subdir :=
  [Subdir.flat_separated "plugins" "BepInEx/plugins",
   Subdir.flat_separated "patchers" "BepInEx/patchers",
   (Subdir.flat_separated "monomod" "BepInEx/monomod").extension ".mm.dll",
   Subdir.flat_separated "core" "BepInEx/core",
   (Subdir.untracked "config" "BepInEx/config").mutable]

/-- The BepisLoader built-in rule list from `installer_for`. -/
def bepisLoaderSubdirs : List Subdir :=
  [Subdir.flat_separated "Renderer" "Renderer/BepInEx/plugins",
   Subdir.flat_separated "plugins" "BepInEx/plugins",
   Subdir.flat_separated "patchers" "BepInEx/patchers",
   (Subdir.flat_separated "monomod" "BepInEx/monomod").extension ".mm.dll",
   Subdir.flat_separated "core" "BepInEx/core",
   (Subdir.untracked "config" "BepInEx/config").mutable]

/-- The MelonLoader self-install allow-list (`FILES` in `installer_for`). -/
def melonLoaderSelfFiles : List String :=
  ["dobby.dll", "version.dll", "MelonLoader/Dependencies",
   "MelonLoader/Documentation", "MelonLoader/net6", "MelonLoader/net35"]

/-- The MelonLoader built-in rule list from `installer_for`. -/
def melonLoaderSubdirs : List Subdir :=
  [(Subdir.tracked "UserLibs" "UserLibs").extension ".lib.dll",
   (Subdir.tracked "Managed" "MelonLoader/Managed").extension ".managed.dll",
   (Subdir.tracked "Mods" "Mods").extension ".dll",
   Subdir.separated "ModManager" "UserData/ModManager",
   Subdir.tracked "MelonLoader" "MelonLoader",
   Subdir.tracked "Libs" "MelonLoader/Libs"]

/-- The MelonLoader ignored-file list (`IGNORED` in `installer_for`). -/
def melonLoaderIgnored : List String :=
  ["manifest.json", "icon.png", "README.md"]

/-- The GDWeave self-install allow-list (`FILES` in `installer_for`). -/
def gdweaveSelfFiles : List String :=
  ["winmm.dll", "GDWeave/core"]

/-- The Northstar self-install allow-list (`FILES` in `installer_for`). -/
def northstarSelfFiles : List String :=
  ["Northstar.dll", "NorthstarLauncher.exe", "r2ds.bat", "bin",
   "R2Northstar/plugins",
   "R2Northstar/mods/Northstar.Client",
   "R2Northstar/mods/Northstar.Custom",
   "R2Northstar/mods/Northstar.CustomServers",
   "R2Northstar/mods/md5sum.text"]

/-- The Northstar ordinary-mod rule list from `installer_for`. -/
def northstarSubdirs : List Subdir :=
  [Subdir.tracked "mods" "R2Northstar/mods"]

/-- The Northstar ignored-file list (`IGNORED` in `installer_for`). -/
def northstarIgnored : List String :=
  ["manifest.json", "icon.png", "README.md", "LICENSE"]

/-- The Shimloader ordinary-mod rule list from `installer_for`. -/
def shimloaderSubdirs : List Subdir :=
  [Subdir.flat_separated "mod" "shimloader/mod",
   Subdir.flat_separated "pak" "shimloader/pak",
   (Subdir.untracked "cfg" "shimloader/cfg").mutable]

/-- The ReturnOfModding ordinary-mod rule list from `installer_for`. -/
def returnOfModdingSubdirs : List Subdir :=
  [Subdir.separated "plugins" "ReturnOfModding/plugins",
   Subdir.separated "plugins_data" "ReturnOfModding/plugins_data",
   (Subdir.separated "config" "ReturnOfModding/config").mutable]

/-- The Lovely self-install allow-list (`FILES` in `installer_for`). -/
def lovelySelfFiles : List String :=
  ["version.dll"]

/-- The Lovely ordinary-mod rule list from `installer_for`. -/
def lovelySubdirs : List Subdir :=
  [Subdir.separated "" "mods"]

/-- The match of `ModLoader::installer_for` on the pair
`(is_loader_package(package_name), kind)`, from `mod_loader.rs`, arm by
arm. -/
def selectInstaller (kind : ModLoaderKind) (isSelf : Bool) : PackageInstaller :=
  match isSelf, kind with
  | true, .BepInEx _ => .BepinexInstaller
  | false, .BepInEx extra_subdirs =>
      .SubdirInstaller
        (((SubdirInstaller.new bepinexSubdirs).with_default 0).with_extras extra_subdirs)
  | true, .BepisLoader _ => .BepinexInstaller
  | false, .BepisLoader extra_subdirs =>
      .SubdirInstaller
        (((SubdirInstaller.new bepisLoaderSubdirs).with_default 1).with_extras extra_subdirs)
  | true, .MelonLoader _ => .ExtractInstaller melonLoaderSelfFiles .No
  | false, .MelonLoader extra_subdirs =>
      .SubdirInstaller
        ((((SubdirInstaller.new melonLoaderSubdirs).with_default 2).with_extras
            extra_subdirs).with_ignored_files melonLoaderIgnored)
  | true, .GDWeave => .ExtractInstaller gdweaveSelfFiles .No
  | false, .GDWeave => .GDWeaveModInstaller
  | true, .Northstar => .ExtractInstaller northstarSelfFiles .Yes
  | false, .Northstar =>
      .SubdirInstaller
        ((SubdirInstaller.new northstarSubdirs).with_ignored_files northstarIgnored)
  | true, .Shimloader => .ShimloaderInstaller
  | false, .Shimloader =>
      .SubdirInstaller ((SubdirInstaller.new shimloaderSubdirs).with_default 0)
  | true, .ReturnOfModding files => .ExtractInstaller files .Yes
  | false, .ReturnOfModding _ =>
      .SubdirInstaller ((SubdirInstaller.new returnOfModdingSubdirs).with_default 0)
  | true, .Lovely => .ExtractInstaller lovelySelfFiles .No
  | false, .Lovely =>
      .SubdirInstaller ((SubdirInstaller.new lovelySubdirs).with_default 0)

/-- `ModLoader::installer_for` from `mod_loader.rs`: dispatch on the pair
`(is_loader_package(package_name), kind)`. -/
def ModLoader.installer_for (ml : ModLoader) (package_name : String) : PackageInstaller :=
  selectInstaller ml.kind (ml.is_loader_package package_name)

/-- Splits a character list at every slash, accumulating the current
component in reverse. -/
def splitPathAux : List Char → List Char → List String
  | [], acc => [String.mk acc.reverse]
  | c :: cs, acc =>
    if c = '/' then String.mk acc.reverse :: splitPathAux cs []
    else splitPathAux cs (c :: acc)

/-- Splits a slash-separated allow-list path into its components. -/
def splitPath (s : String) : List String :=
  splitPathAux s.data []

/-- Lower-cases a string character by character. -/
def lowerStr (s : String) : String :=
  String.mk (s.data.map Char.toLower)

/-- Modelled from the spec: under `flatten`, the package is assumed to wrap
its payload in exactly one top-level directory, which is stripped before
allow-list paths are interpreted (spec section 4.3). A path consisting of the
wrapper alone has no remainder. -/
def stripTopLevel (p : List String) : Option (List String) :=
  match p with
  | [] => none
  | _ :: rest => if rest.isEmpty then none else some rest

/-- Modelled from the spec: the plan computed by `ExtractInstaller`
(`ExtractionPlacer`, spec section 4.3), whose implementation in
`crate::profile::install` is not among the provided sources. The package
listing is given as file paths in components; a file is placed at its own
relative path when some allow-listed path is a prefix of it (a directory
allow-list entry covers the files under it); allow-listed paths absent from
the package are skipped. -/
def extractPlan (files : List String) (flatten : FlattenTopLevel)
    (package : List (List String)) : List (List String) :=
  let contents :=
    match flatten with
    | .Yes => package.filterMap stripTopLevel
    | .No => package
  contents.filter (fun p => files.any (fun f => (splitPath f).isPrefixOf p))

/-- A top-level entry of a package listing: name, directory flag and the
relative paths of the files nested inside it (spec section 4.2). -/
structure PackageEntry where
  name : String
  isDir : Bool
  files : List String
deriving DecidableEq, Repr

/-- One entry of a placement plan: source path, destination path, and the
tracking/mutability inherited from the producing rule (spec section 3). -/
structure PlanEntry where
  source : String
  dest : String
  tracked : Bool
  isMutable : Bool
deriving DecidableEq, Repr

/-- A placement plan: ordered entries plus unroutable-entry warnings (spec
section 3). -/
structure PlacementPlan where
  entries : List PlanEntry
  warnings : List String
deriving DecidableEq, Repr

/-- Modelled from the spec: case-insensitive suffix test used by extension
filters (spec section 4.2 step 4). -/
def endsWithCI (s suf : String) : Bool :=
  (lowerStr suf).data.isSuffixOf (lowerStr s).data

/-- Modelled from the spec: a rule matches an entry when its match name
equals the entry's name case-insensitively (spec section 4.2 step 2). -/
def matchesRule (r : Subdir) (entryName : String) : Bool :=
  lowerStr r.match_name == lowerStr entryName

/-- Modelled from the spec: files kept by a matched rule — filtered by the
extension filter when present, all files otherwise (spec section 4.2
step 4). -/
def keptFiles (r : Subdir) (e : PackageEntry) : List String :=
  match r.extension_filter with
  | some ext => e.files.filter (fun f => endsWithCI f ext)
  | none => e.files

/-- Modelled from the spec: destination of one kept file (spec section 4.2
step 5) — flat layout places it directly under the rule's destination,
nested layout adds the per-mod identifier and the entry name. -/
def destFor (r : Subdir) (modId : String) (e : PackageEntry) (f : String) : String :=
  match r.layout with
  | .Flat => r.destination ++ "/" ++ f
  | .Nested => r.destination ++ "/" ++ modId ++ "/" ++ e.name ++ "/" ++ f

/-- Modelled from the spec: the plan entries produced by routing one package
entry through one rule (spec section 4.2 steps 4 to 6). -/
def routeEntry (r : Subdir) (modId : String) (e : PackageEntry) : List PlanEntry :=
  (keptFiles r e).map (fun f =>
    ⟨e.name ++ "/" ++ f, destFor r modId e f,
     r.tracking == Tracking.Tracked, r.isMutable⟩)

/-- Modelled from the spec: processing of one top-level entry by the
`SubdirPlacer` (spec section 4.2 steps 1 to 3): ignored names are dropped,
the first matching rule wins, an unmatched entry is routed through the
default rule when one is set and otherwise recorded as a warning. -/
def subdirPlanStep (rules : List Subdir) (defaultIdx : Option Nat)
    (ignored : List String) (modId : String)
    (plan : PlacementPlan) (e : PackageEntry) : PlacementPlan :=
  if ignored.contains e.name then plan
  else
    match rules.find? (fun r => matchesRule r e.name) with
    | some r => { plan with entries := plan.entries ++ routeEntry r modId e }
    | none =>
      match defaultIdx.bind (fun i => rules.get? i) with
      | some r => { plan with entries := plan.entries ++ routeEntry r modId e }
      | none => { plan with warnings := plan.warnings ++ [e.name] }

/-- Modelled from the spec: the full `SubdirPlacer` plan (spec section 4.2),
whose implementation in `crate::profile::install` is not among the provided
sources — built-in rules first, extras after, processed over the package's
top-level entries in order. -/
def subdirPlan (si : SubdirInstaller) (modId : String)
    (entries : List PackageEntry) : PlacementPlan :=
  entries.foldl (subdirPlanStep (si.subdirs ++ si.extras) si.defaultIdx si.ignored modId)
    ⟨[], []⟩

/-- Modelled from the spec: execution of one plan entry by the external
executor (spec section 4.2 step 7): an entry produced under an
untracked+mutable rule never overwrites an existing destination file
(merge-preserve); every other entry writes unconditionally. The filesystem is
a map from destination path to contents. -/
def execEntry (content : String → String) (fs : String → Option String)
    (e : PlanEntry) : String → Option String :=
  if e.tracked = false ∧ e.isMutable = true then
    match fs e.dest with
    | some _ => fs
    | none => fun d => if d = e.dest then some (content e.source) else fs d
  else
    fun d => if d = e.dest then some (content e.source) else fs d

/-- Modelled from the spec: execution of a whole plan, entry by entry in
order. -/
def execPlan (content : String → String) (entries : List PlanEntry)
    (fs : String → Option String) : String → Option String :=
  entries.foldl (execEntry content) fs

/-- The built-in self-package identity predicate of a variant: the check of
`is_loader_package` when no explicit `package_name` override is present. -/
def builtin_is_loader_package (k : ModLoaderKind) (full_name : String) : Bool :=
  ModLoader.is_loader_package ⟨none, k⟩ full_name

/-- The built-in predicate of variant `k` consists of a single rule that is
either an exact string match against `s` or a prefix match against `s`. -/
def SingleExactOrPrefixRule (k : ModLoaderKind) : Prop :=
  ∃ s : String,
    (∀ n, builtin_is_loader_package k n = (n == s)) ∨
    (∀ n, builtin_is_loader_package k n = strStartsWith n s)

/-- C1 (counterexample): resolving the BepInEx loader with its recognized
self-package identifier does not yield an extraction-based placer — the code
returns the bespoke `BepinexInstaller`. -/
theorem installer_kind_not_exhaustive_cx :
    (ModLoader.installer_for ⟨none, .BepInEx []⟩ "BepInEx-BepInExPack").isExtract = false := by
  decide

/-- C1 (amended): the full installer-selection table. Self-package resolution
yields an extraction-based placer for MelonLoader, GDWeave, Northstar,
ReturnOfModding and Lovely, but the bespoke `BepinexInstaller` for BepInEx and
BepisLoader and the bespoke `ShimloaderInstaller` for Shimloader; non-self
resolution yields a subdir-rule-based placer for every variant except GDWeave,
which uses the bespoke `GDWeaveModInstaller`. -/
theorem installer_kind_table :
    (∀ es, selectInstaller (.BepInEx es) true = .BepinexInstaller)
    ∧ (∀ es, selectInstaller (.BepInEx es) false
        = .SubdirInstaller
            (((SubdirInstaller.new bepinexSubdirs).with_default 0).with_extras es))
    ∧ (∀ es, selectInstaller (.BepisLoader es) true = .BepinexInstaller)
    ∧ (∀ es, selectInstaller (.BepisLoader es) false
        = .SubdirInstaller
            (((SubdirInstaller.new bepisLoaderSubdirs).with_default 1).with_extras es))
    ∧ (∀ es, selectInstaller (.MelonLoader es) true
        = .ExtractInstaller melonLoaderSelfFiles .No)
    ∧ (∀ es, selectInstaller (.MelonLoader es) false
        = .SubdirInstaller
            ((((SubdirInstaller.new melonLoaderSubdirs).with_default 2).with_extras
                es).with_ignored_files melonLoaderIgnored))
    ∧ selectInstaller .GDWeave true = .ExtractInstaller gdweaveSelfFiles .No
    ∧ selectInstaller .GDWeave false = .GDWeaveModInstaller
    ∧ selectInstaller .Northstar true = .ExtractInstaller northstarSelfFiles .Yes
    ∧ selectInstaller .Northstar false
        = .SubdirInstaller
            ((SubdirInstaller.new northstarSubdirs).with_ignored_files northstarIgnored)
    ∧ selectInstaller .Shimloader true = .ShimloaderInstaller
    ∧ selectInstaller .Shimloader false
        = .SubdirInstaller ((SubdirInstaller.new shimloaderSubdirs).with_default 0)
    ∧ (∀ fs, selectInstaller (.ReturnOfModding fs) true = .ExtractInstaller fs .Yes)
    ∧ (∀ fs, selectInstaller (.ReturnOfModding fs) false
        = .SubdirInstaller ((SubdirInstaller.new returnOfModdingSubdirs).with_default 0))
    ∧ selectInstaller .Lovely true = .ExtractInstaller lovelySelfFiles .No
    ∧ selectInstaller .Lovely false
        = .SubdirInstaller ((SubdirInstaller.new lovelySubdirs).with_default 0) :=
  ⟨fun _ => rfl, fun _ => rfl, fun _ => rfl, fun _ => rfl, fun _ => rfl, fun _ => rfl,
   rfl, rfl, rfl, rfl, rfl, rfl, fun _ => rfl, fun _ => rfl, rfl, rfl⟩

/-- C2: installer selection is a total function of the pair
(variant, self-package boolean): every pair maps to exactly one installer
configuration, and `installer_for` is exactly that dispatch applied to
`is_loader_package`. -/
theorem installer_selection_total :
    (∀ (k : ModLoaderKind) (b : Bool), ∃! i : PackageInstaller, selectInstaller k b = i)
    ∧ ∀ (ml : ModLoader) (package_name : String),
        ml.installer_for package_name
          = selectInstaller ml.kind (ml.is_loader_package package_name) :=
  ⟨fun k b => ⟨selectInstaller k b, rfl, fun _ h => h.symm⟩, fun _ _ => rfl⟩

/-- C3: with an explicit `package_name` override present, the self-package
check holds exactly when the identifier equals the override, for every
variant. -/
theorem package_name_override_decides :
    ∀ (k : ModLoaderKind) (p n : String),
      ModLoader.is_loader_package ⟨some p, k⟩ n = true ↔ n = p := by
  intro k p n
  simp [ModLoader.is_loader_package]

/-- C4 (counterexample): the BepisLoader built-in identity predicate is not a
single exact-or-prefix rule — it accepts the two distinct identifiers
"ResoniteModding-BepisLoader" and "ResoniteModding-BepInExRenderer", which no
single exact rule accepts, and any prefix rule accepting both would accept its
own pattern string, which the code rejects. -/
theorem bepisLoader_not_single_rule_cx :
    ¬ SingleExactOrPrefixRule (.BepisLoader []) := by
  rintro ⟨s, h | h⟩
  · have h1 := h "ResoniteModding-BepisLoader"
    have h2 := h "ResoniteModding-BepInExRenderer"
    rw [show builtin_is_loader_package (.BepisLoader []) "ResoniteModding-BepisLoader" = true
      from by decide] at h1
    rw [show builtin_is_loader_package (.BepisLoader []) "ResoniteModding-BepInExRenderer" = true
      from by decide] at h2
    have e1 : "ResoniteModding-BepisLoader" = s := eq_of_beq h1.symm
    have e2 : "ResoniteModding-BepInExRenderer" = s := eq_of_beq h2.symm
    exact absurd (e1.trans e2.symm) (by decide)
  · have hs := h s
    rw [show strStartsWith s s = true
      from by simp [strStartsWith, List.isPrefixOf_iff_prefix]] at hs
    simp [builtin_is_loader_package, ModLoader.is_loader_package] at hs
    rcases hs with h1 | h1
    · have hx := h "ResoniteModding-BepInExRenderer"
      rw [show builtin_is_loader_package (.BepisLoader []) "ResoniteModding-BepInExRenderer" = true
        from by decide, h1] at hx
      exact absurd hx.symm (by decide)
    · have hx := h "ResoniteModding-BepisLoader"
      rw [show builtin_is_loader_package (.BepisLoader []) "ResoniteModding-BepisLoader" = true
        from by decide, h1] at hx
      exact absurd hx.symm (by decide)

/-- C4 (amended): with no override, every variant except BepisLoader has a
built-in identity predicate consisting of exactly one rule — a prefix match on
"BepInEx-BepInExPack" for BepInEx and an exact match for the five others —
while BepisLoader's predicate is the disjunction of two exact matches. -/
theorem builtin_identity_rules :
    (∀ es n, builtin_is_loader_package (.BepInEx es) n
        = strStartsWith n "BepInEx-BepInExPack")
    ∧ (∀ es n, builtin_is_loader_package (.MelonLoader es) n
        = (n == "LavaGang-MelonLoader"))
    ∧ (∀ n, builtin_is_loader_package .GDWeave n = (n == "NotNet-GDWeave"))
    ∧ (∀ n, builtin_is_loader_package .Northstar n = (n == "northstar-Northstar"))
    ∧ (∀ n, builtin_is_loader_package .Shimloader n
        = (n == "Thunderstore-unreal_shimloader"))
    ∧ (∀ n, builtin_is_loader_package .Lovely n = (n == "Thunderstore-lovely"))
    ∧ (∀ fs n, builtin_is_loader_package (.ReturnOfModding fs) n
        = (n == "ReturnOfModding-ReturnOfModding"))
    ∧ (∀ es n, builtin_is_loader_package (.BepisLoader es) n
        = (n == "ResoniteModding-BepisLoader"
            || n == "ResoniteModding-BepInExRenderer")) :=
  ⟨fun _ _ => rfl, fun _ _ => rfl, fun _ => rfl, fun _ => rfl, fun _ => rfl,
   fun _ => rfl, fun _ _ => rfl, fun _ _ => rfl⟩

/-- C5: resolving the Northstar loader with its self-package identifier yields
the extraction placer with the flatten flag set and an allow-list containing
"Northstar.dll"; under flatten, a package laid out as wrapper/Northstar.dll
places exactly the one file "Northstar.dll" at the game root, and without
flatten the same package places nothing. -/
theorem northstar_self_extraction :
    ModLoader.installer_for ⟨none, .Northstar⟩ "northstar-Northstar"
        = .ExtractInstaller northstarSelfFiles .Yes
    ∧ "Northstar.dll" ∈ northstarSelfFiles
    ∧ (∀ w : String,
        extractPlan northstarSelfFiles .Yes [[w, "Northstar.dll"]] = [["Northstar.dll"]])
    ∧ extractPlan northstarSelfFiles .No [["wrapper", "Northstar.dll"]] = [] :=
  ⟨by decide, by decide, fun _ => rfl, by decide⟩

/-- C6: the proxy-library query over all variants — a fixed library name for
BepInEx and GDWeave, none for BepisLoader, MelonLoader, Northstar, Shimloader
and Lovely, and the first entry of the runtime-declared files list for
ReturnOfModding. -/
theorem proxy_library_table :
    (∀ pn es, ModLoader.proxy_dll ⟨pn, .BepInEx es⟩ = .ok (some "winhttp"))
    ∧ (∀ pn es, ModLoader.proxy_dll ⟨pn, .BepisLoader es⟩ = .ok none)
    ∧ (∀ pn es, ModLoader.proxy_dll ⟨pn, .MelonLoader es⟩ = .ok none)
    ∧ (∀ pn, ModLoader.proxy_dll ⟨pn, .Northstar⟩ = .ok none)
    ∧ (∀ pn, ModLoader.proxy_dll ⟨pn, .GDWeave⟩ = .ok (some "winmm"))
    ∧ (∀ pn, ModLoader.proxy_dll ⟨pn, .Shimloader⟩ = .ok none)
    ∧ (∀ pn, ModLoader.proxy_dll ⟨pn, .Lovely⟩ = .ok none)
    ∧ (∀ pn f fs, ModLoader.proxy_dll ⟨pn, .ReturnOfModding (f :: fs)⟩ = .ok (some f)) :=
  ⟨fun _ _ => rfl, fun _ _ => rfl, fun _ _ => rfl, fun _ => rfl, fun _ => rfl,
   fun _ => rfl, fun _ => rfl, fun _ _ _ => rfl⟩

/-- C7: the config-directory query is total and returns the canonical relative
configuration directory of each variant, with the profile root "." for
MelonLoader, Northstar, Shimloader and Lovely. -/
theorem mod_config_dir_table :
    (∀ pn es, ModLoader.mod_config_dir ⟨pn, .BepInEx es⟩ = "BepInEx/config")
    ∧ (∀ pn es, ModLoader.mod_config_dir ⟨pn, .BepisLoader es⟩ = "BepInEx/config")
    ∧ (∀ pn es, ModLoader.mod_config_dir ⟨pn, .MelonLoader es⟩ = ".")
    ∧ (∀ pn, ModLoader.mod_config_dir ⟨pn, .GDWeave⟩ = "GDWeave/configs")
    ∧ (∀ pn, ModLoader.mod_config_dir ⟨pn, .Northstar⟩ = ".")
    ∧ (∀ pn, ModLoader.mod_config_dir ⟨pn, .Shimloader⟩ = ".")
    ∧ (∀ pn, ModLoader.mod_config_dir ⟨pn, .Lovely⟩ = ".")
    ∧ (∀ pn fs, ModLoader.mod_config_dir ⟨pn, .ReturnOfModding fs⟩
        = "ReturnOfModding/config") :=
  ⟨fun _ _ => rfl, fun _ _ => rfl, fun _ _ => rfl, fun _ => rfl, fun _ => rfl,
   fun _ => rfl, fun _ => rfl, fun _ _ => rfl⟩

/-- C9: the proxy-library query on a ReturnOfModding descriptor is defined
exactly when the runtime-declared files list is non-empty — it then returns
the first entry and never reaches the out-of-bounds branch — and it fails
(panics) on an empty list. -/
theorem proxy_dll_first_file_guard :
    (∀ pn f fs, ModLoader.proxy_dll ⟨pn, .ReturnOfModding (f :: fs)⟩ = .ok (some f))
    ∧ (∀ pn, ModLoader.proxy_dll ⟨pn, .ReturnOfModding []⟩
        = .error "index out of bounds: the len is 0 but the index is 0") :=
  ⟨fun _ _ _ => rfl, fun _ => rfl⟩

/-- Executing one plan entry preserves an existing file at a destination when
any entry aimed at that destination is untracked and mutable. -/
theorem execEntry_preserves (content : String → String) (fs : String → Option String)
    (e : PlanEntry) (d c : String) (hd : fs d = some c)
    (he : e.dest = d → e.tracked = false ∧ e.isMutable = true) :
    execEntry content fs e d = some c := by
  unfold execEntry
  by_cases hum : e.tracked = false ∧ e.isMutable = true
  · rw [if_pos hum]
    cases hfd : fs e.dest with
    | some v => exact hd
    | none =>
      show (if d = e.dest then some (content e.source) else fs d) = some c
      have hdd : ¬ d = e.dest := by
        intro hh
        rw [hh, hfd] at hd
        exact Option.noConfusion hd
      rw [if_neg hdd]
      exact hd
  · rw [if_neg hum]
    show (if d = e.dest then some (content e.source) else fs d) = some c
    by_cases hdd : d = e.dest
    · exact absurd (he hdd.symm) hum
    · rw [if_neg hdd]
      exact hd

/-- C8: the BepInEx "config" rule is untracked and mutable, and executing a
plan whose entries aimed at a given destination are all untracked+mutable
leaves a file already present at that destination byte-for-byte unchanged —
merge-preserve across reinstall. -/
theorem untracked_mutable_merge_preserve :
    (∃ r ∈ bepinexSubdirs, r.match_name = "config" ∧ r.tracking = Tracking.Untracked
        ∧ r.isMutable = true)
    ∧ ∀ (content : String → String) (entries : List PlanEntry)
        (fs : String → Option String) (d c : String),
        fs d = some c →
        (∀ e ∈ entries, e.dest = d → e.tracked = false ∧ e.isMutable = true) →
        execPlan content entries fs d = some c := by
  constructor
  · decide
  · intro content entries
    induction entries with
    | nil => intro fs d c hd _; exact hd
    | cons e es ih =>
      intro fs d c hd hflags
      have h1 : execEntry content fs e d = some c :=
        execEntry_preserves content fs e d c hd
          (fun hdd => hflags e (List.mem_cons_self e es) hdd)
      exact ih (execEntry content fs e) d c h1
        (fun e2 he2 => hflags e2 (List.mem_cons_of_mem e he2))

/-- C8 witness: reinstalling a config file over an existing
"BepInEx/config/gale.cfg" with contents "old" leaves "old" in place. -/
theorem untracked_mutable_merge_preserve_witness :
    execPlan (fun _ => "new")
      [⟨"config/gale.cfg", "BepInEx/config/gale.cfg", false, true⟩]
      (fun d => if d = "BepInEx/config/gale.cfg" then some "old" else none)
      "BepInEx/config/gale.cfg" = some "old" :=
  untracked_mutable_merge_preserve.2 (fun _ => "new")
    [⟨"config/gale.cfg", "BepInEx/config/gale.cfg", false, true⟩]
    (fun d => if d = "BepInEx/config/gale.cfg" then some "old" else none)
    "BepInEx/config/gale.cfg" "old" (by simp) (by decide)

/-- C10: the ordinary-mod Northstar installer has the single rule "mods" to
"R2Northstar/mods" and no default rule index, so a package whose top-level
entry is neither ignored nor named "mods" (case-insensitively) yields no plan
entries and exactly one unroutable warning for that entry. -/
theorem northstar_mod_unrouted :
    selectInstaller .Northstar false
        = .SubdirInstaller
            ((SubdirInstaller.new northstarSubdirs).with_ignored_files northstarIgnored)
    ∧ northstarSubdirs = [Subdir.tracked "mods" "R2Northstar/mods"]
    ∧ ((SubdirInstaller.new northstarSubdirs).with_ignored_files northstarIgnored).defaultIdx
        = none
    ∧ ∀ (modId : String) (e : PackageEntry),
        lowerStr e.name ≠ "mods" →
        northstarIgnored.contains e.name = false →
        subdirPlan ((SubdirInstaller.new northstarSubdirs).with_ignored_files northstarIgnored)
          modId [e] = ⟨[], [e.name]⟩ := by
  refine ⟨rfl, rfl, rfl, ?_⟩
  intro modId e hname hign
  have hm : matchesRule (Subdir.tracked "mods" "R2Northstar/mods") e.name = false := by
    unfold matchesRule
    rw [show lowerStr (Subdir.tracked "mods" "R2Northstar/mods").match_name = "mods" from by decide]
    exact beq_eq_false_iff_ne.mpr fun hh => hname hh.symm
  simp [subdirPlan, subdirPlanStep, SubdirInstaller.new, SubdirInstaller.with_ignored_files,
    northstarSubdirs, List.find?, hm, show e.name ∉ northstarIgnored from by simpa using hign]

/-- C10 witness: a Northstar mod package with the single unmatched top-level
entry "stuff" produces an empty plan and the one warning "stuff". -/
theorem northstar_mod_unrouted_witness :
    subdirPlan ((SubdirInstaller.new northstarSubdirs).with_ignored_files northstarIgnored)
      "Auth-Mod" [⟨"stuff", true, ["a.txt"]⟩] = ⟨[], ["stuff"]⟩ :=
  northstar_mod_unrouted.2.2.2 "Auth-Mod" ⟨"stuff", true, ["a.txt"]⟩ (by decide) (by decide)

end Gale
